import Mathlib

/-!
Verification of the data-fetch-and-query layer of the news MCP server
(`src/server.py`).

The embedding models:
* the record rows of the two SQLite tables (`articles`, `videos`);
* a snapshot (`Db`) in which either table may be missing, as happens when
  the downloaded snapshot is malformed or empty;
* the snapshot fetcher `open_latest_db` (a `requests.get` with
  `timeout=20` followed by `raise_for_status`), whose network outcome is
  passed in explicitly as an `HttpResult`;
* the two query tools `latest_articles` and `latest_videos`, translated
  clause by clause from the SQL they build: a time-window filter
  `published_at` at least `now` minus `hours` (the SQL clause built
  from `datetime` with a negative hour offset), the category /
  channel filters, `ORDER BY published_at DESC`, and `LIMIT ?`.

Timestamps are integers (UTC instants measured in hours); `now` is an
explicit parameter standing for the SQLite current time.
The Python lowercasing `str.lower` is modelled by `pyLower` (ASCII case
folding via `Char.toLower`, which is what it does on the category
strings involved).
-/

instance [DecidableEq ε] [DecidableEq α] : DecidableEq (Except ε α) := fun a b =>
  match a, b with
  | .error e, .error f => if h : e = f then isTrue (by subst h; rfl) else isFalse (by simp [h])
  | .error _, .ok _ => isFalse (by simp)
  | .ok _, .error _ => isFalse (by simp)
  | .ok x, .ok y => if h : x = y then isTrue (by subst h; rfl) else isFalse (by simp [h])

/-- A row of the `articles` table.  `category` is a nullable column. -/
structure ArticleRow where
  title : String
  url : String
  source_name : String
  category : Option String
  published_at : Int
deriving DecidableEq, Repr

/-- A record returned by `latest_articles`
(`{"title": r[0], "url": r[1], "source": r[2], "category": r[3], "published_at": r[4]}`). -/
structure ArticleRec where
  title : String
  url : String
  source : String
  category : Option String
  published_at : Int
deriving DecidableEq, Repr

/-- A row of the `videos` table. -/
structure VideoRow where
  title : String
  url : String
  channel_name : String
  published_at : Int
deriving DecidableEq, Repr

/-- A record returned by `latest_videos`
(`{"title": r[0], "url": r[1], "channel": r[2], "published_at": r[3]}`). -/
structure VideoRec where
  title : String
  url : String
  channel : String
  published_at : Int
deriving DecidableEq, Repr

/-- A fetched snapshot.  A missing table (`none`) models a malformed or
empty snapshot file, where the SQL query fails with `no such table`. -/
structure Db where
  articlesTab : Option (List ArticleRow)
  videosTab : Option (List VideoRow)
deriving DecidableEq, Repr

/-- The fixed set `VALID_CATEGORIES = {"tech", "startups", "business", "politics", "finance", "miscellaneous"}`. -/
def VALID_CATEGORIES : List String :=
  ["tech", "startups", "business", "politics", "finance", "miscellaneous"]

/-- Python `str.lower` on the ASCII fragment relevant to category names. -/
def pyLower (s : String) : String :=
  ⟨s.data.map Char.toLower⟩

/-- Python truthiness of an optional string (`if channel:`):
`None` and `""` are falsy. -/
def pyTruthy (s : Option String) : Bool :=
  match s with
  | some c => !(c == "")
  | none => false

/-- The comparator realising `ORDER BY published_at DESC` for rows whose
timestamp is read off by `t`. -/
def timeDesc (t : α → Int) (a b : α) : Prop :=
  t b ≤ t a

instance (t : α → Int) : DecidableRel (timeDesc t) :=
  fun a b => Int.decLe (t b) (t a)

instance (t : α → Int) : IsTotal α (timeDesc t) :=
  ⟨fun a b => Int.le_total (t b) (t a)⟩

instance (t : α → Int) : IsTrans α (timeDesc t) :=
  ⟨fun _ _ _ h1 h2 => le_trans h2 h1⟩

/-- The SQL window clause: `published_at` at least `now` minus `hours`. -/
def inWindow (now : Int) (hours : Nat) (ts : Int) : Bool :=
  now - (hours : Int) ≤ ts

/-- The category validation of `latest_articles`:
an empty list is first replaced by all valid categories
(`if not categories: categories = list(VALID_CATEGORIES)`), then
`valid = [c.lower() for c in categories if c.lower() in VALID_CATEGORIES]`. -/
def validatedCategories (categories : List String) : List String :=
  let cats := if categories.isEmpty then VALID_CATEGORIES else categories
  cats.filterMap fun c =>
    if VALID_CATEGORIES.contains (pyLower c) then some (pyLower c) else none

/-- The `WHERE` clause of the articles query: the time window, and —
only when the validated category list is nonempty — `category IN (...)`.
A SQL `NULL` category never satisfies the `IN` clause. -/
def articleWhere (valid : List String) (now : Int) (hours : Nat) (r : ArticleRow) : Bool :=
  inWindow now hours r.published_at &&
    (valid.isEmpty ||
      match r.category with
      | some c => valid.contains c
      | none => false)

/-- The dict built from an article row:
`{"title": r[0], "url": r[1], "source": r[2], "category": r[3], "published_at": r[4]}`. -/
def articleToRec (r : ArticleRow) : ArticleRec :=
  ⟨r.title, r.url, r.source_name, r.category, r.published_at⟩

/-- Does the `category` of a row hold a value of the fixed valid enumeration?
(The data-model invariant the external producer is supposed to keep.) -/
def categoryValid (r : ArticleRow) : Bool :=
  match r.category with
  | some c => VALID_CATEGORIES.contains c
  | none => false

/-- The rows produced by the articles query: filter by the `WHERE`
clause, `ORDER BY published_at DESC`, `LIMIT ?`, then map to dicts. -/
def queryArticles (rows : List ArticleRow) (categories : List String)
    (now : Int) (hours limit : Nat) : List ArticleRec :=
  let valid := validatedCategories categories
  ((((rows.filter (articleWhere valid now hours)).insertionSort
      (timeDesc ArticleRow.published_at)).take limit).map articleToRec)

/-- The error raised when the snapshot is missing an expected table
(the `SchemaError` of the spec; concretely the sqlite `no such table`). -/
inductive SchemaError where
  | noSuchTable (table : String)
deriving DecidableEq, Repr

/-- The tool `latest_articles(categories, hours=24, limit=2000)`, over a fetched
snapshot `db` and with `now` standing for the SQLite current time. -/
def latest_articles (db : Db) (categories : List String)
    (now : Int) (hours limit : Nat) : Except SchemaError (List ArticleRec) :=
  match db.articlesTab with
  | none => .error (.noSuchTable "articles")
  | some rows => .ok (queryArticles rows categories now hours limit)

/-- The `WHERE` clause of the videos query: the time window, and — only
when `channel` is truthy (`if channel:`) — `channel_name = ?`. -/
def videoWhere (channel : Option String) (now : Int) (hours : Nat) (r : VideoRow) : Bool :=
  inWindow now hours r.published_at &&
    (if pyTruthy channel then r.channel_name == channel.getD "" else true)

/-- The dict built from a video row:
`{"title": r[0], "url": r[1], "channel": r[2], "published_at": r[3]}`. -/
def videoToRec (r : VideoRow) : VideoRec :=
  ⟨r.title, r.url, r.channel_name, r.published_at⟩

/-- The rows produced by the videos query. -/
def queryVideos (rows : List VideoRow) (now : Int) (hours limit : Nat)
    (channel : Option String) : List VideoRec :=
  ((((rows.filter (videoWhere channel now hours)).insertionSort
      (timeDesc VideoRow.published_at)).take limit).map videoToRec)

/-- The tool `latest_videos(hours=24, limit=50, channel=None)` over a fetched snapshot. -/
def latest_videos (db : Db) (now : Int) (hours limit : Nat)
    (channel : Option String) : Except SchemaError (List VideoRec) :=
  match db.videosTab with
  | none => .error (.noSuchTable "videos")
  | some rows => .ok (queryVideos rows now hours limit channel)

/-- The default of the `limit` parameter in the `latest_articles`
function signature (`limit: int = 2000`). -/
def LATEST_ARTICLES_DEFAULT_LIMIT : Nat := 2000

/-- The default advertised for `limit` in the `latest_articles` tool
parameter schema (`"default": 1000`). -/
def LATEST_ARTICLES_SCHEMA_DEFAULT_LIMIT : Nat := 1000

/-- A call of `latest_articles` that omits the `limit` argument. -/
def latest_articles_default_limit (db : Db) (categories : List String)
    (now : Int) (hours : Nat) : Except SchemaError (List ArticleRec) :=
  latest_articles db categories now hours LATEST_ARTICLES_DEFAULT_LIMIT

/-- The `FetchError` of the spec: a non-success HTTP status
(`resp.raise_for_status()`) or a transport failure of `requests.get`. -/
inductive FetchError where
  | httpError (status : Nat)
  | transportError
deriving DecidableEq, Repr

/-- An HTTP response: a status code and a body, the body already read as
the snapshot it decodes to. -/
structure HttpResponse where
  status : Nat
  content : Db
deriving DecidableEq, Repr

/-- The outcome of the single HTTP GET issued by one invocation. -/
inductive HttpResult where
  | ok (resp : HttpResponse)
  | failed
deriving DecidableEq, Repr

/-- The fixed timeout passed to `requests.get(DB_URL, timeout=20)`. -/
def REQUESTS_TIMEOUT : Nat := 20

/-- The default snapshot source URL (`DB_URL`, environment-overridable). -/
def DB_URL : String :=
  "https://raw.githubusercontent.com/chitadi/news-agent-poke-mcp/data/newsletter.db"

/-- The check `resp.raise_for_status()`: raises `FetchError.httpError` exactly on
4xx/5xx statuses. -/
def raise_for_status (resp : HttpResponse) : Except FetchError HttpResponse :=
  if 400 ≤ resp.status ∧ resp.status < 600 then .error (.httpError resp.status) else .ok resp

/-- The fetcher `open_latest_db()`: one GET (its outcome is `result`); a transport
failure or `raise_for_status` error propagates as a `FetchError`; on
success the body is persisted and opened as the snapshot. -/
def open_latest_db (result : HttpResult) : Except FetchError Db :=
  match result with
  | .failed => .error .transportError
  | .ok resp =>
    match raise_for_status resp with
    | .error e => .error e
    | .ok r => .ok r.content

/-- An error surfaced by a tool invocation: a fetch failure or a schema
failure, surfaced verbatim. -/
inductive ToolError where
  | fetch (e : FetchError)
  | schema (e : SchemaError)
deriving DecidableEq, Repr

/-- A whole `latest_articles` tool invocation: fetch the snapshot, then
query it; each error propagates unchanged to the caller. -/
def latest_articles_tool (result : HttpResult) (categories : List String)
    (now : Int) (hours limit : Nat) : Except ToolError (List ArticleRec) :=
  match open_latest_db result with
  | .error e => .error (.fetch e)
  | .ok db =>
    match latest_articles db categories now hours limit with
    | .error e => .error (.schema e)
    | .ok recs => .ok recs

/-- Two successive, independent tool invocations: each consumes its own
GET outcome; no state flows from the first call into the second. -/
def fetch_twice (r1 r2 : HttpResult) : Except FetchError Db × Except FetchError Db :=
  (open_latest_db r1, open_latest_db r2)

/-! Concrete snapshots used to instantiate the theorems.  Timestamps are
hours; the query time used with them is `now = 100`, so with `hours = 24`
the window is `published_at ≥ 76`. -/

/-- Example articles: the spec §8 example (one article 2 hours old, one
50 hours old) plus a third in-window row in a different category. -/
def exArticles : List ArticleRow :=
  [⟨"AI Act passes", "https://ex.org/a1", "Example Daily", some "politics", 98⟩,
   ⟨"Startup raises funding", "https://ex.org/a2", "Biz Wire", some "startups", 50⟩,
   ⟨"Chip launch", "https://ex.org/a3", "Tech Post", some "tech", 95⟩]

/-- Example videos: two rows of one channel and one of another, all in
the 24-hour window at `now = 100`. -/
def exVideos : List VideoRow :=
  [⟨"Markets today", "https://ex.org/v1", "Bloomberg", 99⟩,
   ⟨"Week review", "https://ex.org/v2", "Bloomberg", 98⟩,
   ⟨"Launch event", "https://ex.org/v3", "The Verge", 97⟩]

/-- A well-formed example snapshot. -/
def exDb : Db := ⟨some exArticles, some exVideos⟩

/-- A malformed/empty snapshot: neither expected table exists. -/
def emptyDb : Db := ⟨none, none⟩

/-- An in-window article row whose `category` value lies outside the
fixed valid enumeration. -/
def sportsRow : ArticleRow :=
  ⟨"Match highlights", "https://ex.org/s1", "Sports Desk", some "sports", 99⟩

/-- A snapshot containing a row with an out-of-enumeration category. -/
def badCatDb : Db := ⟨some [sportsRow], some []⟩

/-! Helper lemmas about the two query pipelines. -/

/-- Records keep the timestamp of the row. -/
theorem articleToRec_published_at (r : ArticleRow) :
    (articleToRec r).published_at = r.published_at := rfl

/-- Records keep the timestamp of the row. -/
theorem videoToRec_published_at (r : VideoRow) :
    (videoToRec r).published_at = r.published_at := rfl

/-- The article query output is pairwise descending in `published_at`. -/
theorem queryArticles_pairwise (rows : List ArticleRow) (categories : List String)
    (now : Int) (hours limit : Nat) :
    (queryArticles rows categories now hours limit).Pairwise
      fun a b => b.published_at ≤ a.published_at := by
  unfold queryArticles
  rw [List.pairwise_map]
  have hs : List.Pairwise (timeDesc ArticleRow.published_at)
      (((rows.filter (articleWhere (validatedCategories categories) now hours)).insertionSort
        (timeDesc ArticleRow.published_at))) :=
    List.sorted_insertionSort _ _
  exact (List.Pairwise.sublist (List.take_sublist _ _) hs).imp fun h => h

/-- The video query output is pairwise descending in `published_at`. -/
theorem queryVideos_pairwise (rows : List VideoRow) (now : Int) (hours limit : Nat)
    (channel : Option String) :
    (queryVideos rows now hours limit channel).Pairwise
      fun a b => b.published_at ≤ a.published_at := by
  unfold queryVideos
  rw [List.pairwise_map]
  have hs : List.Pairwise (timeDesc VideoRow.published_at)
      (((rows.filter (videoWhere channel now hours)).insertionSort
        (timeDesc VideoRow.published_at))) :=
    List.sorted_insertionSort _ _
  exact (List.Pairwise.sublist (List.take_sublist _ _) hs).imp fun h => h

/-- Every output record of the article query comes from a row that
passes the `WHERE` clause. -/
theorem mem_queryArticles {rows : List ArticleRow} {categories : List String}
    {now : Int} {hours limit : Nat} {rec : ArticleRec}
    (h : rec ∈ queryArticles rows categories now hours limit) :
    ∃ r ∈ rows, articleWhere (validatedCategories categories) now hours r = true ∧
      rec = articleToRec r := by
  unfold queryArticles at h
  obtain ⟨r, hr, rfl⟩ := List.mem_map.mp h
  have hr2 := (List.mem_insertionSort _).mp (List.mem_of_mem_take hr)
  obtain ⟨hr3, hr4⟩ := List.mem_filter.mp hr2
  exact ⟨r, hr3, hr4, rfl⟩

/-- Every output record of the video query comes from a row that passes
the `WHERE` clause. -/
theorem mem_queryVideos {rows : List VideoRow} {now : Int} {hours limit : Nat}
    {channel : Option String} {rec : VideoRec}
    (h : rec ∈ queryVideos rows now hours limit channel) :
    ∃ r ∈ rows, videoWhere channel now hours r = true ∧ rec = videoToRec r := by
  unfold queryVideos at h
  obtain ⟨r, hr, rfl⟩ := List.mem_map.mp h
  have hr2 := (List.mem_insertionSort _).mp (List.mem_of_mem_take hr)
  obtain ⟨hr3, hr4⟩ := List.mem_filter.mp hr2
  exact ⟨r, hr3, hr4, rfl⟩

/-- When the `LIMIT` does not truncate, the article query returns
exactly the rows passing the `WHERE` clause (as a permutation). -/
theorem queryArticles_perm {rows : List ArticleRow} {categories : List String}
    {now : Int} {hours limit : Nat}
    (h : (rows.filter (articleWhere (validatedCategories categories) now hours)).length
        ≤ limit) :
    (queryArticles rows categories now hours limit).Perm
      ((rows.filter (articleWhere (validatedCategories categories) now hours)).map
        articleToRec) := by
  simp only [queryArticles]
  rw [List.take_of_length_le (by rw [List.length_insertionSort]; exact h)]
  exact (List.perm_insertionSort _ _).map _

/-- When the `LIMIT` does not truncate, the video query returns exactly
the rows passing the `WHERE` clause (as a permutation). -/
theorem queryVideos_perm {rows : List VideoRow} {now : Int} {hours limit : Nat}
    {channel : Option String}
    (h : (rows.filter (videoWhere channel now hours)).length ≤ limit) :
    (queryVideos rows now hours limit channel).Perm
      ((rows.filter (videoWhere channel now hours)).map videoToRec) := by
  unfold queryVideos
  rw [List.take_of_length_le (by rw [List.length_insertionSort]; exact h)]
  exact (List.perm_insertionSort _ _).map _

/-- A larger lookback window keeps every row the smaller one kept. -/
theorem inWindow_mono {now : Int} {h1 h2 : Nat} (hle : h1 ≤ h2) {ts : Int}
    (h : inWindow now h1 ts = true) : inWindow now h2 ts = true := by
  simp only [inWindow, decide_eq_true_eq] at h ⊢
  omega

/-- The articles `WHERE` clause is monotone in `hours`. -/
theorem articleWhere_hours_mono {v : List String} {now : Int} {h1 h2 : Nat}
    (hle : h1 ≤ h2) {r : ArticleRow}
    (h : articleWhere v now h1 r = true) : articleWhere v now h2 r = true := by
  unfold articleWhere at h ⊢
  rw [Bool.and_eq_true] at h ⊢
  exact ⟨inWindow_mono hle h.1, h.2⟩

/-- Inverting a successful `latest_articles` call. -/
theorem latest_articles_ok {db : Db} {categories : List String} {now : Int}
    {hours limit : Nat} {arts : List ArticleRec}
    (h : latest_articles db categories now hours limit = .ok arts) :
    ∃ rows, db.articlesTab = some rows ∧
      arts = queryArticles rows categories now hours limit := by
  unfold latest_articles at h
  cases hdb : db.articlesTab with
  | none => rw [hdb] at h; exact Except.noConfusion h
  | some rows => rw [hdb] at h; exact ⟨rows, rfl, (Except.ok.inj h).symm⟩

/-- Inverting a successful `latest_videos` call. -/
theorem latest_videos_ok {db : Db} {now : Int} {hours limit : Nat}
    {channel : Option String} {vids : List VideoRec}
    (h : latest_videos db now hours limit channel = .ok vids) :
    ∃ rows, db.videosTab = some rows ∧
      vids = queryVideos rows now hours limit channel := by
  unfold latest_videos at h
  cases hdb : db.videosTab with
  | none => rw [hdb] at h; exact Except.noConfusion h
  | some rows => rw [hdb] at h; exact ⟨rows, rfl, (Except.ok.inj h).symm⟩

/-- The article query returns at most `limit` records. -/
theorem queryArticles_length_le (rows : List ArticleRow) (categories : List String)
    (now : Int) (hours limit : Nat) :
    (queryArticles rows categories now hours limit).length ≤ limit := by
  simp only [queryArticles, List.length_map, List.length_take]
  exact min_le_left _ _

/-- The video query returns at most `limit` records. -/
theorem queryVideos_length_le (rows : List VideoRow) (now : Int) (hours limit : Nat)
    (channel : Option String) :
    (queryVideos rows now hours limit channel).length ≤ limit := by
  simp only [queryVideos, List.length_map, List.length_take]
  exact min_le_left _ _

/-- A smaller `LIMIT` takes a prefix of the output of the larger one:
truncation happens after ordering. -/
theorem queryArticles_take (rows : List ArticleRow) (categories : List String)
    (now : Int) (hours : Nat) {N M : Nat} (h : N ≤ M) :
    queryArticles rows categories now hours N
      = (queryArticles rows categories now hours M).take N := by
  simp only [queryArticles, ← List.map_take, List.take_take, Nat.min_eq_left h]

/-- A smaller `LIMIT` takes a prefix of the output of the larger one. -/
theorem queryVideos_take (rows : List VideoRow) (now : Int) (hours : Nat)
    (channel : Option String) {N M : Nat} (h : N ≤ M) :
    queryVideos rows now hours N channel
      = (queryVideos rows now hours M channel).take N := by
  simp only [queryVideos, ← List.map_take, List.take_take, Nat.min_eq_left h]

/-- Claim C4: for every output of latest_articles and latest_videos the
records are ordered by published timestamp descending: every adjacent
pair (a, b) of the returned sequence satisfies
a.published_at ≥ b.published_at (no guarantee on ties). -/
theorem C4_output_ordered_desc
    (db : Db) (categories : List String) (channel : Option String)
    (now : Int) (hours limit : Nat)
    (arts : List ArticleRec) (vids : List VideoRec)
    (ha : latest_articles db categories now hours limit = .ok arts)
    (hv : latest_videos db now hours limit channel = .ok vids) :
    arts.Chain' (fun a b => b.published_at ≤ a.published_at) ∧
    vids.Chain' (fun a b => b.published_at ≤ a.published_at) := by
  obtain ⟨rowsA, -, rfl⟩ := latest_articles_ok ha
  obtain ⟨rowsV, -, rfl⟩ := latest_videos_ok hv
  exact ⟨(queryArticles_pairwise ..).chain', (queryVideos_pairwise ..).chain'⟩

/-- Witness for C4 at a concrete snapshot and concrete parameters. -/
theorem C4_output_ordered_desc_witness :
    (queryArticles exArticles ["tech", "politics"] 100 24 10).Chain'
      (fun a b => b.published_at ≤ a.published_at) ∧
    (queryVideos exVideos 100 24 10 (some "Bloomberg")).Chain'
      (fun a b => b.published_at ≤ a.published_at) :=
  C4_output_ordered_desc exDb ["tech", "politics"] (some "Bloomberg") 100 24 10
    _ _ rfl rfl

/-- Calling `latest_articles` with the smaller of two limits returns the prefix
of the result with the larger limit. -/
theorem latest_articles_take (db : Db) (categories : List String) (now : Int)
    (hours : Nat) {N M : Nat} (h : N ≤ M) :
    latest_articles db categories now hours N
      = Except.map (fun l => l.take N) (latest_articles db categories now hours M) := by
  cases hdb : db.articlesTab with
  | none => simp [latest_articles, hdb, Except.map]
  | some rows => simp [latest_articles, hdb, Except.map, queryArticles_take rows categories now hours h]

/-- Calling `latest_videos` with the smaller of two limits returns the prefix of
the result with the larger limit. -/
theorem latest_videos_take (db : Db) (now : Int) (hours : Nat)
    (channel : Option String) {N M : Nat} (h : N ≤ M) :
    latest_videos db now hours N channel
      = Except.map (fun l => l.take N) (latest_videos db now hours M channel) := by
  cases hdb : db.videosTab with
  | none => simp [latest_videos, hdb, Except.map]
  | some rows => simp [latest_videos, hdb, Except.map, queryVideos_take rows now hours channel h]

/-- Claim C5: for every N ≥ 0 and every snapshot, latest_articles and
latest_videos with limit = N return at most N records, the truncation is
a prefix of the ordered untruncated output (applied after ordering), and
limit = 0 returns an empty sequence. -/
theorem C5_limit_cap
    (db : Db) (categories : List String) (channel : Option String)
    (now : Int) (hours : Nat) (N M : Nat) (hNM : N ≤ M) :
    (∀ arts, latest_articles db categories now hours N = .ok arts →
      arts.length ≤ N ∧ (N = 0 → arts = [])) ∧
    (∀ vids, latest_videos db now hours N channel = .ok vids →
      vids.length ≤ N ∧ (N = 0 → vids = [])) ∧
    latest_articles db categories now hours N
      = Except.map (fun l => l.take N) (latest_articles db categories now hours M) ∧
    latest_videos db now hours N channel
      = Except.map (fun l => l.take N) (latest_videos db now hours M channel) := by
  refine ⟨?_, ?_, latest_articles_take db categories now hours hNM,
    latest_videos_take db now hours channel hNM⟩
  · intro arts ha
    obtain ⟨rows, -, rfl⟩ := latest_articles_ok ha
    refine ⟨queryArticles_length_le .., ?_⟩
    rintro rfl
    simp [queryArticles]
  · intro vids hv
    obtain ⟨rows, -, rfl⟩ := latest_videos_ok hv
    refine ⟨queryVideos_length_le .., ?_⟩
    rintro rfl
    simp [queryVideos]

/-- Witness for C5 at a concrete snapshot, N = 2, M = 10. -/
theorem C5_limit_cap_witness :
    ((queryArticles exArticles ["tech", "politics"] 100 24 2).length ≤ 2 ∧
      (2 = 0 → queryArticles exArticles ["tech", "politics"] 100 24 2 = [])) ∧
    ((queryVideos exVideos 100 24 2 none).length ≤ 2 ∧
      (2 = 0 → queryVideos exVideos 100 24 2 none = [])) ∧
    latest_articles exDb ["tech", "politics"] 100 24 2
      = Except.map (fun l => l.take 2) (latest_articles exDb ["tech", "politics"] 100 24 10) ∧
    latest_videos exDb 100 24 2 none
      = Except.map (fun l => l.take 2) (latest_videos exDb 100 24 10 none) := by
  have h := C5_limit_cap exDb ["tech", "politics"] none 100 24 2 10 (by decide)
  exact ⟨h.1 _ rfl, h.2.1 _ rfl, h.2.2.1, h.2.2.2⟩

/-- Claim C2: a snapshot missing the expected table makes the query
operations fail with a SchemaError (`no such table`); a snapshot with
the table but no matching rows is not an error and yields `[]`. -/
theorem C2_schema_error_vs_empty
    (db : Db) (categories : List String) (channel : Option String)
    (now : Int) (hours limit : Nat) :
    (db.articlesTab = none →
      latest_articles db categories now hours limit
        = .error (.noSuchTable "articles")) ∧
    (db.videosTab = none →
      latest_videos db now hours limit channel
        = .error (.noSuchTable "videos")) ∧
    (∀ rows, db.articlesTab = some rows →
      (∀ r ∈ rows, articleWhere (validatedCategories categories) now hours r = false) →
      latest_articles db categories now hours limit = .ok []) ∧
    (∀ rows, db.videosTab = some rows →
      (∀ r ∈ rows, videoWhere channel now hours r = false) →
      latest_videos db now hours limit channel = .ok []) := by
  refine ⟨?_, ?_, ?_, ?_⟩
  · intro h; simp [latest_articles, h]
  · intro h; simp [latest_videos, h]
  · intro rows hdb hnone
    have hfil : rows.filter (articleWhere (validatedCategories categories) now hours) = [] :=
      List.filter_eq_nil_iff.mpr fun a ha => by simp [hnone a ha]
    simp [latest_articles, hdb, queryArticles, hfil]
  · intro rows hdb hnone
    have hfil : rows.filter (videoWhere channel now hours) = [] :=
      List.filter_eq_nil_iff.mpr fun a ha => by simp [hnone a ha]
    simp [latest_videos, hdb, queryVideos, hfil]

/-- Witness for C2: a snapshot with both tables missing errors on both
operations; a well-formed snapshot queried with `hours = 0` (no row is
recent enough) yields `.ok []` on both. -/
theorem C2_schema_error_vs_empty_witness :
    latest_articles emptyDb ["tech"] 100 24 10 = .error (.noSuchTable "articles") ∧
    latest_videos emptyDb 100 24 10 none = .error (.noSuchTable "videos") ∧
    latest_articles exDb ["tech"] 100 0 10 = .ok [] ∧
    latest_videos exDb 100 0 10 none = .ok [] := by
  have h1 := C2_schema_error_vs_empty emptyDb ["tech"] none 100 24 10
  have h2 := C2_schema_error_vs_empty exDb ["tech"] none 100 0 10
  exact ⟨h1.1 rfl, h1.2.1 rfl, h2.2.2.1 exArticles rfl (by decide),
    h2.2.2.2 exVideos rfl (by decide)⟩

/-- Claim C7: the snapshot fetch of each invocation is one blocking GET with
the fixed timeout 20; any 4xx/5xx status (e.g. 404) or transport failure
fails with a FetchError surfaced verbatim by the tool, with no retry,
and the outcome of a call never depends on the outcome of an earlier call. -/
theorem C7_fetch_single_get_stateless :
    REQUESTS_TIMEOUT = 20 ∧
    (∀ s db, 400 ≤ s → s < 600 →
      open_latest_db (.ok ⟨s, db⟩) = .error (.httpError s)) ∧
    open_latest_db .failed = .error .transportError ∧
    (∀ s db, s < 400 → open_latest_db (.ok ⟨s, db⟩) = .ok db) ∧
    (∀ result e categories now hours limit,
      open_latest_db result = .error e →
      latest_articles_tool result categories now hours limit = .error (.fetch e)) ∧
    (∀ r1 r1' r2, (fetch_twice r1 r2).2 = (fetch_twice r1' r2).2) := by
  refine ⟨rfl, ?_, rfl, ?_, ?_, fun _ _ _ => rfl⟩
  · intro s db h4 h6
    simp [open_latest_db, raise_for_status, if_pos (And.intro h4 h6)]
  · intro s db h
    have hneg : ¬(400 ≤ s ∧ s < 600) := by omega
    simp [open_latest_db, raise_for_status, if_neg hneg]
  · intro result e categories now hours limit h
    simp [latest_articles_tool, h]

/-- Witness for C7: HTTP 404 surfaces a FetchError through the tool, a
transport failure does too, and the second of two calls is unaffected by
what the first one returned. -/
theorem C7_fetch_single_get_stateless_witness :
    open_latest_db (.ok ⟨404, exDb⟩) = .error (.httpError 404) ∧
    open_latest_db (.ok ⟨200, exDb⟩) = .ok exDb ∧
    latest_articles_tool .failed ["tech"] 100 24 10
      = .error (.fetch .transportError) ∧
    (fetch_twice (.ok ⟨404, emptyDb⟩) (.ok ⟨200, exDb⟩)).2
      = (fetch_twice (.ok ⟨200, exDb⟩) (.ok ⟨200, exDb⟩)).2 := by
  have h := C7_fetch_single_get_stateless
  exact ⟨h.2.1 404 exDb (by decide) (by decide), h.2.2.2.1 200 exDb (by decide),
    h.2.2.2.2.1 .failed .transportError ["tech"] 100 24 10 rfl,
    h.2.2.2.2.2 (.ok ⟨404, emptyDb⟩) (.ok ⟨200, exDb⟩) (.ok ⟨200, exDb⟩)⟩

/-- Claim C10: when `limit` is omitted, latest_articles caps at the
function default 2000, not the 1000 advertised in the tool parameter
schema: the default call equals the call with limit = 2000. -/
theorem C10_default_limit_2000 :
    LATEST_ARTICLES_DEFAULT_LIMIT = 2000 ∧
    LATEST_ARTICLES_SCHEMA_DEFAULT_LIMIT = 1000 ∧
    LATEST_ARTICLES_DEFAULT_LIMIT ≠ LATEST_ARTICLES_SCHEMA_DEFAULT_LIMIT ∧
    ∀ db categories now hours,
      latest_articles_default_limit db categories now hours
        = latest_articles db categories now hours 2000 :=
  ⟨rfl, rfl, by decide, fun _ _ _ _ => rfl⟩

/-- On a row whose stored category is a valid one, filtering by the full
valid list and not filtering at all agree. -/
theorem articleWhere_all_eq_none {now : Int} {hours : Nat} {r : ArticleRow}
    (h : categoryValid r = true) :
    articleWhere VALID_CATEGORIES now hours r = articleWhere [] now hours r := by
  unfold categoryValid at h
  cases hc : r.category with
  | none => rw [hc] at h; exact Bool.noConfusion h
  | some c =>
    rw [hc] at h
    have h' : VALID_CATEGORIES.contains c = true := h
    have hm : c ∈ VALID_CATEGORIES := by
      simpa only [List.elem_eq_mem, decide_eq_true_eq] using h'
    simp only [articleWhere, hc]
    simp [hm]

/-- Claim C1 counterexample: on a snapshot holding a row whose category
is outside the valid enumeration (`"sports"`), the three invocations are
not pairwise equal — the invalid-only call applies no category filter
and returns the row, while the other two calls exclude it. -/
theorem C1_counterexample :
    ¬ (latest_articles badCatDb [] 100 24 10
        = latest_articles badCatDb ["bogus"] 100 24 10 ∧
       latest_articles badCatDb [] 100 24 10
        = latest_articles badCatDb VALID_CATEGORIES 100 24 10 ∧
       latest_articles badCatDb ["bogus"] 100 24 10
        = latest_articles badCatDb VALID_CATEGORIES 100 24 10) := by decide

/-- Claim C1 (amended): calling latest_articles with an empty categories
list always equals calling it with all valid categories; the call with
only invalid category strings applies no category filter, so all three
are pairwise equal provided every article row of the snapshot stores a
non-null category belonging to the valid enumeration. -/
theorem C1_empty_invalid_all_equal
    (db : Db) (cats : List String) (now : Int) (hours limit : Nat)
    (hcats : ∀ c ∈ cats, VALID_CATEGORIES.contains (pyLower c) = false)
    (hdb : ∀ r ∈ db.articlesTab.getD [], categoryValid r = true) :
    latest_articles db [] now hours limit = latest_articles db cats now hours limit ∧
    latest_articles db [] now hours limit
      = latest_articles db VALID_CATEGORIES now hours limit ∧
    latest_articles db cats now hours limit
      = latest_articles db VALID_CATEGORIES now hours limit := by
  have hBC : latest_articles db [] now hours limit
      = latest_articles db VALID_CATEGORIES now hours limit := by
    cases hdbt : db.articlesTab with
    | none => simp [latest_articles, hdbt]
    | some rows =>
      have hv : validatedCategories [] = validatedCategories VALID_CATEGORIES := by decide
      simp only [latest_articles, hdbt, queryArticles, hv]
  have hAB : latest_articles db [] now hours limit
      = latest_articles db cats now hours limit := by
    cases cats with
    | nil => rfl
    | cons c cs =>
      cases hdbt : db.articlesTab with
      | none => simp [latest_articles, hdbt]
      | some rows =>
        have hdb' : ∀ r ∈ rows, categoryValid r = true := fun r hr =>
          hdb r (by rw [hdbt]; exact hr)
        have hv1 : validatedCategories [] = VALID_CATEGORIES := by decide
        have hv2 : validatedCategories (c :: cs) = [] := by
          unfold validatedCategories
          rw [if_neg (by simp)]
          refine List.filterMap_eq_nil_iff.mpr fun x hx => ?_
          have h := hcats x hx
          simp only [List.elem_eq_mem, decide_eq_false_iff_not] at h
          simp [h]
        have hfil : rows.filter (articleWhere VALID_CATEGORIES now hours)
            = rows.filter (articleWhere [] now hours) :=
          List.filter_congr fun r hr => articleWhere_all_eq_none (hdb' r hr)
        simp only [latest_articles, hdbt, queryArticles, hv1, hv2, hfil]
  exact ⟨hAB, hBC, hAB.symm.trans hBC⟩

/-- Witness for C1 (amended) on a snapshot whose rows all carry valid
categories, with an invalid-only list of two strings. -/
theorem C1_empty_invalid_all_equal_witness :
    latest_articles exDb [] 100 24 10
      = latest_articles exDb ["bogus", "TECHY"] 100 24 10 ∧
    latest_articles exDb [] 100 24 10
      = latest_articles exDb VALID_CATEGORIES 100 24 10 ∧
    latest_articles exDb ["bogus", "TECHY"] 100 24 10
      = latest_articles exDb VALID_CATEGORIES 100 24 10 :=
  C1_empty_invalid_all_equal exDb ["bogus", "TECHY"] 100 24 10 (by decide) (by decide)

/-- A row passing the articles `WHERE` clause is inside the lookback window. -/
theorem articleWhere_window {v : List String} {now : Int} {hours : Nat} {r : ArticleRow}
    (h : articleWhere v now hours r = true) :
    now - (hours : Int) ≤ r.published_at := by
  unfold articleWhere at h
  rw [Bool.and_eq_true] at h
  simpa only [inWindow, decide_eq_true_eq] using h.1

/-- A row passing the videos `WHERE` clause is inside the lookback window. -/
theorem videoWhere_window {channel : Option String} {now : Int} {hours : Nat} {r : VideoRow}
    (h : videoWhere channel now hours r = true) :
    now - (hours : Int) ≤ r.published_at := by
  unfold videoWhere at h
  rw [Bool.and_eq_true] at h
  simpa only [inWindow, decide_eq_true_eq] using h.1

/-- Claim C3 counterexample: a snapshot row inside the window and
passing the category filter for which the call returns no record at
all, because the claim ignores the `limit` truncation (`limit = 0`). -/
theorem C3_counterexample :
    articleWhere (validatedCategories ["politics"]) 100 24
      ⟨"AI Act passes", "https://ex.org/a1", "Example Daily", some "politics", 98⟩ = true ∧
    exDb.articlesTab = some exArticles ∧
    (⟨"AI Act passes", "https://ex.org/a1", "Example Daily", some "politics", 98⟩ : ArticleRow)
      ∈ exArticles ∧
    latest_articles exDb ["politics"] 100 24 0 = .ok [] := by decide

/-- Claim C3 (amended): latest_articles never returns a record for a row
outside the lookback window, and — provided `limit` is at least the
number of rows matching the window and category filter — it returns
exactly one record per matching row. -/
theorem C3_window_exact
    (db : Db) (cats : List String) (now : Int) (hours limit : Nat)
    (rows : List ArticleRow) (arts : List ArticleRec)
    (hdb : db.articlesTab = some rows)
    (hok : latest_articles db cats now hours limit = .ok arts) :
    (∀ rec ∈ arts, now - (hours : Int) ≤ rec.published_at) ∧
    ((rows.filter (articleWhere (validatedCategories cats) now hours)).length ≤ limit →
      arts.Perm ((rows.filter (articleWhere (validatedCategories cats) now hours)).map
        articleToRec)) := by
  obtain ⟨rows', hdb', rfl⟩ := latest_articles_ok hok
  rw [hdb] at hdb'
  injection hdb' with he
  subst he
  constructor
  · intro rec hrec
    obtain ⟨r, -, hw, rfl⟩ := mem_queryArticles hrec
    exact articleWhere_window hw
  · exact fun hlen => queryArticles_perm hlen

/-- Witness for C3 (amended) on the spec §8 example: with hours = 24 the
2-hour-old politics article matches and the 50-hour-old startups article
does not; the limit (1000) does not truncate. -/
theorem C3_window_exact_witness :
    (∀ rec ∈ queryArticles exArticles ["politics", "startups"] 100 24 1000,
      (100 : Int) - ((24 : Nat) : Int) ≤ rec.published_at) ∧
    ((exArticles.filter
        (articleWhere (validatedCategories ["politics", "startups"]) 100 24)).length ≤ 1000 →
      (queryArticles exArticles ["politics", "startups"] 100 24 1000).Perm
        ((exArticles.filter
          (articleWhere (validatedCategories ["politics", "startups"]) 100 24)).map
            articleToRec)) :=
  C3_window_exact exDb ["politics", "startups"] 100 24 1000 exArticles
    (queryArticles exArticles ["politics", "startups"] 100 24 1000) rfl rfl

/-- Claim C6: against a fixed snapshot and fixed current time, for
h1 < h2 the urls returned with hours = h2 include every url returned
with hours = h1, provided the limit does not truncate the h2 result. -/
theorem C6_hours_superset
    (db : Db) (cats : List String) (now : Int) (limit : Nat)
    (h1 h2 : Nat) (hlt : h1 < h2)
    (rows : List ArticleRow) (hdb : db.articlesTab = some rows)
    (htr : (rows.filter (articleWhere (validatedCategories cats) now h2)).length ≤ limit)
    (arts1 arts2 : List ArticleRec)
    (hok1 : latest_articles db cats now h1 limit = .ok arts1)
    (hok2 : latest_articles db cats now h2 limit = .ok arts2) :
    ∀ u ∈ arts1.map ArticleRec.url, u ∈ arts2.map ArticleRec.url := by
  obtain ⟨r1, hd1, rfl⟩ := latest_articles_ok hok1
  rw [hdb] at hd1
  injection hd1 with he1
  subst he1
  obtain ⟨r2, hd2, rfl⟩ := latest_articles_ok hok2
  rw [hdb] at hd2
  injection hd2 with he2
  subst he2
  intro u hu
  obtain ⟨rec, hrec, rfl⟩ := List.mem_map.mp hu
  obtain ⟨r, hr, hw, rfl⟩ := mem_queryArticles hrec
  have hw2 : articleWhere (validatedCategories cats) now h2 r = true :=
    articleWhere_hours_mono (le_of_lt hlt) hw
  have hmem2 : articleToRec r ∈ queryArticles rows cats now h2 limit :=
    (queryArticles_perm htr).mem_iff.mpr
      (List.mem_map_of_mem _ (List.mem_filter.mpr ⟨hr, hw2⟩))
  exact List.mem_map_of_mem ArticleRec.url hmem2

/-- Witness for C6: hours 10 vs 30 over the example snapshot, at the
url of the politics article returned by the hours-10 call. -/
theorem C6_hours_superset_witness :
    "https://ex.org/a1"
      ∈ (queryArticles exArticles ["politics", "tech"] 100 30 10).map ArticleRec.url :=
  C6_hours_superset exDb ["politics", "tech"] 100 10 10 30 (by decide) exArticles rfl
    (by decide) _ _ rfl rfl "https://ex.org/a1" (by decide)

/-- With a non-empty channel string the videos `WHERE` clause is the
window conjoined with an exact channel-name comparison. -/
theorem videoWhere_some_ne {c : String} (hc : c ≠ "") (now : Int) (hours : Nat)
    (r : VideoRow) :
    videoWhere (some c) now hours r
      = (inWindow now hours r.published_at && (r.channel_name == c)) := by
  simp [videoWhere, pyTruthy, beq_eq_false_iff_ne.mpr hc]

/-- Claim C8 counterexample: with `channel` provided as the empty string
the code applies no channel restriction (Python truthiness), returning
rows of other channels; and with a matching channel but `limit = 1` only
one of the two matching in-window rows is returned — so the result is
not "exactly the in-window rows whose channel name equals it". -/
theorem C8_counterexample :
    latest_videos exDb 100 24 10 (some "")
      = .ok [⟨"Markets today", "https://ex.org/v1", "Bloomberg", 99⟩,
             ⟨"Week review", "https://ex.org/v2", "Bloomberg", 98⟩,
             ⟨"Launch event", "https://ex.org/v3", "The Verge", 97⟩] ∧
    exVideos.filter (fun r => r.channel_name == "") = [] ∧
    latest_videos exDb 100 24 1 (some "Bloomberg")
      = .ok [⟨"Markets today", "https://ex.org/v1", "Bloomberg", 99⟩] ∧
    exVideos.filter
      (fun r => inWindow 100 24 r.published_at && (r.channel_name == "Bloomberg"))
      = [⟨"Markets today", "https://ex.org/v1", "Bloomberg", 99⟩,
         ⟨"Week review", "https://ex.org/v2", "Bloomberg", 98⟩] := by decide

/-- Claim C8 (amended): when a non-empty channel string is provided,
every returned record is in-window and has exactly that channel name
(case-sensitive), and — provided the limit does not truncate — the
result is exactly the in-window rows with that channel name; when
channel is omitted or empty, no channel restriction is applied. -/
theorem C8_channel_exact
    (db : Db) (now : Int) (hours limit : Nat)
    (rows : List VideoRow) (hdb : db.videosTab = some rows) :
    (∀ c, c ≠ "" → ∀ vids, latest_videos db now hours limit (some c) = .ok vids →
      (∀ rec ∈ vids, rec.channel = c ∧ now - (hours : Int) ≤ rec.published_at) ∧
      ((rows.filter (videoWhere (some c) now hours)).length ≤ limit →
        vids.Perm ((rows.filter
          (fun r => inWindow now hours r.published_at && (r.channel_name == c))).map
            videoToRec))) ∧
    latest_videos db now hours limit (some "") = latest_videos db now hours limit none := by
  constructor
  · intro c hc vids hok
    obtain ⟨rows', hdb', rfl⟩ := latest_videos_ok hok
    rw [hdb] at hdb'
    injection hdb' with he
    subst he
    constructor
    · intro rec hrec
      obtain ⟨r, -, hw, rfl⟩ := mem_queryVideos hrec
      have hwin := videoWhere_window hw
      rw [videoWhere_some_ne hc, Bool.and_eq_true] at hw
      exact ⟨eq_of_beq hw.2, hwin⟩
    · intro hlen
      have hfil : rows.filter (videoWhere (some c) now hours)
          = rows.filter
            (fun r => inWindow now hours r.published_at && (r.channel_name == c)) :=
        List.filter_congr fun r _ => videoWhere_some_ne hc now hours r
      have hperm := queryVideos_perm hlen
      rwa [hfil] at hperm
  · rfl

/-- Witness for C8 (amended): channel "Bloomberg" over the example
snapshot, limit 10 (no truncation), plus the empty-vs-omitted equality. -/
theorem C8_channel_exact_witness :
    (∀ rec ∈ queryVideos exVideos 100 24 10 (some "Bloomberg"),
      rec.channel = "Bloomberg" ∧ (100 : Int) - ((24 : Nat) : Int) ≤ rec.published_at) ∧
    (queryVideos exVideos 100 24 10 (some "Bloomberg")).Perm
      ((exVideos.filter
        (fun r => inWindow 100 24 r.published_at && (r.channel_name == "Bloomberg"))).map
          videoToRec) ∧
    latest_videos exDb 100 24 10 (some "") = latest_videos exDb 100 24 10 none := by
  have h := C8_channel_exact exDb 100 24 10 exVideos rfl
  have h1 := h.1 "Bloomberg" (by decide) (queryVideos exVideos 100 24 10 (some "Bloomberg")) rfl
  exact ⟨h1.1, h1.2 (by decide), h.2⟩

/-- Already-lowercase ASCII letters are fixed by `Char.toLower`. -/
theorem charToLower_key :
    ∀ m, m < 123 → 97 ≤ m → Char.toLower (Char.ofNat m) = Char.ofNat m := by decide

/-- Lowercasing a character twice equals lowercasing it once. -/
theorem charToLower_idem (c : Char) : c.toLower.toLower = c.toLower := by
  by_cases h : c.toNat ≥ 65 ∧ c.toNat ≤ 90
  · have h1 : c.toLower = Char.ofNat (c.toNat + 32) := by
      simp only [Char.toLower]
      rw [if_pos h]
    rw [h1]
    exact charToLower_key (c.toNat + 32) (by omega) (by omega)
  · have h1 : c.toLower = c := by
      simp only [Char.toLower]
      rw [if_neg h]
    rw [h1]
    exact h1

/-- Lowercasing a string twice equals lowercasing it once. -/
theorem pyLower_idem (s : String) : pyLower (pyLower s) = pyLower s := by
  show (⟨(s.data.map Char.toLower).map Char.toLower⟩ : String) = ⟨s.data.map Char.toLower⟩
  rw [List.map_map]
  exact congrArg String.mk (List.map_congr_left fun c _ => charToLower_idem c)

/-- Category validation cannot tell a list from its lowercased image. -/
theorem validated_map_pyLower (cats : List String) :
    validatedCategories (cats.map pyLower) = validatedCategories cats := by
  have hfun : (fun c => if VALID_CATEGORIES.contains (pyLower (pyLower c))
        then some (pyLower (pyLower c)) else none)
      = (fun c => if VALID_CATEGORIES.contains (pyLower c)
        then some (pyLower c) else none) :=
    funext fun c => by rw [pyLower_idem]
  cases cats with
  | nil => rfl
  | cons c cs =>
    have hne1 : (List.map pyLower (c :: cs)).isEmpty = false := by simp
    have hne2 : ((c :: cs) : List String).isEmpty = false := by simp
    simp only [validatedCategories, hne1, hne2, Bool.false_eq_true, if_false]
    rw [List.filterMap_map]
    exact congrArg (fun g => List.filterMap g (c :: cs)) hfun

/-- Claim C9: category validation is case-insensitive on the input
side — every supplied category string is lowercased before being checked
and before being used, so a call returns the same result as the call
with all its category strings lowercased (e.g. ["TECH"] vs ["tech"]). -/
theorem C9_categories_case_insensitive
    (db : Db) (categories : List String) (now : Int) (hours limit : Nat) :
    latest_articles db categories now hours limit
      = latest_articles db (categories.map pyLower) now hours limit := by
  cases hdb : db.articlesTab with
  | none => simp [latest_articles, hdb]
  | some rows =>
    simp only [latest_articles, hdb, queryArticles, validated_map_pyLower]

/-- Witness for C10: the default call equals the limit-2000 call on the
example snapshot. -/
theorem C10_default_limit_2000_witness :
    latest_articles_default_limit exDb ["tech"] 100 24
      = latest_articles exDb ["tech"] 100 24 2000 :=
  C10_default_limit_2000.2.2.2 exDb ["tech"] 100 24
